import Mathlib

/-!
Verification of `src/inputgeneration.c` (3D voxel-grid generator for
tomographic input data).

The program resolves grid parameters from command-line arguments and
compile-time defaults, optionally writes a 16-integer header, and then
streams the voxel grid to the output file in chunks of at most
`OBJ_BUFFER = 100` horizontal layers.

C `int` arithmetic is modelled by unbounded `Int` (no claim concerns
overflow); C `double` arithmetic on the small integral magnitudes involved
is exact, so it is modelled by exact rational arithmetic over `ℚ`;
`double`→`int` conversion truncates toward zero, modelled by `Int.tdiv`
on numerator and denominator.  Fallible I/O (`fopen`/`fwrite`) is modelled
by explicit oracle parameters giving each call's result.
-/

namespace InputGeneration

/-- The compile-time constants from `common.h`.  `common.h` is not under
`src/` (only `inputgeneration.c` is), so the numeric default values are
unknown; they are carried as an explicit parameter structure.  Field names
follow the macro names used at lines 91-108 of `inputgeneration.c`. -/
structure Defaults where
  PIXEL_DIM : Int
  ANGULAR_TRAJECTORY : Int
  POSITIONS_ANGULAR_DISTANCE : Int
  OBJECT_SIDE_LENGTH : Int
  DETECTOR_SIDE_LENGTH : Int
  DISTANCE_OBJECT_DETECTOR : Int
  DISTANCE_OBJECT_SOURCE : Int
  VOXEL_X_DIM : Int
  VOXEL_Y_DIM : Int
  VOXEL_Z_DIM : Int
deriving DecidableEq

/-- The `gl_*` global variables of `inputgeneration.c` (lines 91-108),
after any mutation performed by `main`.  The three-element arrays
`gl_nVoxel` / `gl_nPlanes` are flattened into named per-axis fields
(`X = 0`, `Y = 1`, `Z = 2` as in `common.h`). -/
structure Params where
  gl_pixelDim : Int
  gl_angularTrajectory : Int
  gl_positionsAngularDistance : Int
  gl_objectSideLenght : Int
  gl_detectorSideLength : Int
  gl_distanceObjectDetector : Int
  gl_distanceObjectSource : Int
  gl_voxelXDim : Int
  gl_voxelYDim : Int
  gl_voxelZDim : Int
  gl_nVoxelX : Int
  gl_nVoxelY : Int
  gl_nVoxelZ : Int
  gl_nPlanesX : Int
  gl_nPlanesY : Int
  gl_nPlanesZ : Int
deriving DecidableEq

/-- C `double`→`int` conversion of an exactly-represented rational:
truncation toward zero (`Int.tdiv` is T-division). -/
def truncQ (q : ℚ) : Int := Int.tdiv q.num (q.den : Int)

/-- `N_PIXEL_ALONG_SIDE` macro (line 83): `DETECTOR_SIDE_LENGTH / PIXEL_DIM`
with C `int` division (truncation toward zero). -/
def N_PIXEL_ALONG_SIDE (d : Defaults) : Int :=
  Int.tdiv d.DETECTOR_SIDE_LENGTH d.PIXEL_DIM

/-- `OBJ_BUFFER` macro (line 81): at most 100 layers are generated per
loop iteration. -/
def OBJ_BUFFER : Nat := 100

/-- The initial values of the `gl_*` globals (lines 91-108).  The initial
`gl_nVoxel` / `gl_nPlanes` entries (`N_VOXEL_X`, ..., `N_PLANES_Z` from
`common.h`) are modelled by the formula documented at lines 102-106; they
are unconditionally overwritten at lines 175-181 before any use. -/
def initialParams (d : Defaults) : Params where
  gl_pixelDim := d.PIXEL_DIM
  gl_angularTrajectory := d.ANGULAR_TRAJECTORY
  gl_positionsAngularDistance := d.POSITIONS_ANGULAR_DISTANCE
  gl_objectSideLenght := d.OBJECT_SIDE_LENGTH
  gl_detectorSideLength := d.DETECTOR_SIDE_LENGTH
  gl_distanceObjectDetector := d.DISTANCE_OBJECT_DETECTOR
  gl_distanceObjectSource := d.DISTANCE_OBJECT_SOURCE
  gl_voxelXDim := d.VOXEL_X_DIM
  gl_voxelYDim := d.VOXEL_Y_DIM
  gl_voxelZDim := d.VOXEL_Z_DIM
  gl_nVoxelX := Int.tdiv d.OBJECT_SIDE_LENGTH d.VOXEL_X_DIM
  gl_nVoxelY := Int.tdiv d.OBJECT_SIDE_LENGTH d.VOXEL_Y_DIM
  gl_nVoxelZ := Int.tdiv d.OBJECT_SIDE_LENGTH d.VOXEL_Z_DIM
  gl_nPlanesX := Int.tdiv d.OBJECT_SIDE_LENGTH d.VOXEL_X_DIM + 1
  gl_nPlanesY := Int.tdiv d.OBJECT_SIDE_LENGTH d.VOXEL_Y_DIM + 1
  gl_nPlanesZ := Int.tdiv d.OBJECT_SIDE_LENGTH d.VOXEL_Z_DIM + 1

/-- Lines 166-173: global set-up performed when the third argument `n`
is given.  `gl_objectSideLenght` is assigned from a `double` expression
(`n * gl_voxelXDim` is C `int` arithmetic, then multiplied by the exact
`double` quotient `(double)OBJECT_SIDE_LENGTH / (VOXEL_X_DIM *
N_PIXEL_ALONG_SIDE)`); the assignment truncates toward zero.
`gl_distanceObjectDetector = 1.5 * gl_objectSideLenght` likewise
truncates; `gl_detectorSideLength` and `gl_distanceObjectSource` are pure
`int` arithmetic. -/
def applyWorkSize (d : Defaults) (p : Params) (n : Int) : Params :=
  let side : Int := truncQ (((n * p.gl_voxelXDim : Int) : ℚ) *
      ((d.OBJECT_SIDE_LENGTH : ℚ) /
        ((d.VOXEL_X_DIM * N_PIXEL_ALONG_SIDE d : Int) : ℚ)))
  { p with
    gl_objectSideLenght := side
    gl_detectorSideLength := n * p.gl_pixelDim
    gl_distanceObjectDetector := truncQ ((3 / 2 : ℚ) * (side : ℚ))
    gl_distanceObjectSource := 6 * side }

/-- Lines 175-181: `gl_nVoxel` and `gl_nPlanes` are recomputed from
`gl_objectSideLenght` and the voxel dimensions, on every run. -/
def computeVoxelCounts (p : Params) : Params :=
  { p with
    gl_nVoxelX := Int.tdiv p.gl_objectSideLenght p.gl_voxelXDim
    gl_nVoxelY := Int.tdiv p.gl_objectSideLenght p.gl_voxelYDim
    gl_nVoxelZ := Int.tdiv p.gl_objectSideLenght p.gl_voxelZDim
    gl_nPlanesX := Int.tdiv p.gl_objectSideLenght p.gl_voxelXDim + 1
    gl_nPlanesY := Int.tdiv p.gl_objectSideLenght p.gl_voxelYDim + 1
    gl_nPlanesZ := Int.tdiv p.gl_objectSideLenght p.gl_voxelZDim + 1 }

/-- Parameter resolution as performed by `main` (lines 160-181): apply the
work-size set-up when a third argument was given, then recompute the voxel
and plane counts. -/
def resolve (d : Defaults) (nArg : Option Int) : Params :=
  computeVoxelCounts (match nArg with
    | none => initialParams d
    | some n => applyWorkSize d (initialParams d) n)

/-- C `isspace` for the default locale, as used by `atoi`. -/
def isSpaceC (c : Char) : Bool :=
  c == ' ' || c == '\t' || c == '\n' || c == '\x0b' || c == '\x0c' || c == '\r'

/-- Leading-whitespace skipping performed by `atoi`. -/
def skipSpaces : List Char → List Char
  | [] => []
  | c :: cs => if isSpaceC c then skipSpaces cs else c :: cs

/-- Decimal-digit accumulation performed by `atoi`: consume digits until
the first non-digit character. -/
def digitsVal : List Char → Int → Int
  | [], acc => acc
  | c :: cs, acc =>
      if c.isDigit then digitsVal cs (acc * 10 + ((c.toNat : Int) - ('0'.toNat : Int)))
      else acc

/-- C `atoi` (ISO C: optional whitespace, optional sign, longest digit
prefix; `0` when no digits are present).  Overflow is not modelled; no
claim depends on it. -/
def atoi (s : String) : Int :=
  match skipSpaces s.data with
  | '-' :: cs => - digitsVal cs 0
  | '+' :: cs => digitsVal cs 0
  | cs => digitsVal cs 0

/-- The three shapes generated by the `voxel.c` routines. -/
inductive ObjectType where
  | cubeWithSphericalCavity
  | solidSphere
  | solidCube
deriving DecidableEq

/-- The `switch (objectType)` at lines 217-227: `1` selects the cube with
a spherical cavity, `2` the solid sphere, and every other value falls into
the `default` branch generating a solid cube. -/
def dispatch (objectType : Int) : ObjectType :=
  if objectType = 1 then .cubeWithSphericalCavity
  else if objectType = 2 then .solidSphere
  else .solidCube

/-- Modelled from the spec: the shape-classification routines
`generateCubeSlice`, `generateSphereSlice`, `generateCubeWithSphereSlice`
live in `source/voxel.c`, which is not under `src/`.  Following spec §4.2:
a solid-cube voxel has density 1; a solid-sphere voxel has density 1
exactly when its center lies within (boundary included) the sphere of
radius `objectSideLength/2` at the volume's geometric center; the cavity
variant is density 1 outside an internal sphere concentric with the cube
whose radius is a fixed design fraction of `nVoxel[X]` (taken here as
`nVoxel[X]/4`; the spec leaves the exact fraction open). -/
def voxelDensity (shape : ObjectType) (p : Params) (x z y : Nat) : ℚ :=
  match shape with
  | .solidCube => 1
  | .solidSphere =>
      let r : ℚ := (p.gl_objectSideLenght : ℚ) / 2
      let dx : ℚ := ((x : ℚ) + 1 / 2) * (p.gl_voxelXDim : ℚ) -
        (p.gl_nVoxelX : ℚ) * (p.gl_voxelXDim : ℚ) / 2
      let dy : ℚ := ((y : ℚ) + 1 / 2) * (p.gl_voxelYDim : ℚ) -
        (p.gl_nVoxelY : ℚ) * (p.gl_voxelYDim : ℚ) / 2
      let dz : ℚ := ((z : ℚ) + 1 / 2) * (p.gl_voxelZDim : ℚ) -
        (p.gl_nVoxelZ : ℚ) * (p.gl_voxelZDim : ℚ) / 2
      if dx ^ 2 + dy ^ 2 + dz ^ 2 ≤ r ^ 2 then 1 else 0
  | .cubeWithSphericalCavity =>
      let rc : ℚ := (p.gl_nVoxelX : ℚ) / 4
      let dx : ℚ := (x : ℚ) - ((p.gl_nVoxelX : ℚ) - 1) / 2
      let dy : ℚ := (y : ℚ) - ((p.gl_nVoxelY : ℚ) - 1) / 2
      let dz : ℚ := (z : ℚ) - ((p.gl_nVoxelZ : ℚ) - 1) / 2
      if dx ^ 2 + dy ^ 2 + dz ^ 2 ≤ rc ^ 2 then 0 else 1

/-- Modelled from the spec (§3): one horizontal layer at height `y`, in
canonical order — `x` varying fastest, then `z`. -/
def layerValues (shape : ObjectType) (p : Params) (y : Nat) : List ℚ :=
  (List.range p.gl_nVoxelZ.toNat).flatMap fun z =>
    (List.range p.gl_nVoxelX.toNat).map fun x => voxelDensity shape p x z y

/-- Modelled from the spec (§4.2): the buffer contents produced by one
`generate*Slice(grid, nOfSlices, fromSlice, _)` call — the layers
`[fromSlice, fromSlice + nOfSlices)` in slice order. -/
def generateSlice (shape : ObjectType) (p : Params) (nOfSlices fromSlice : Nat) :
    List ℚ :=
  (List.range' fromSlice nOfSlices).flatMap (layerValues shape p)

/-- One unfolding per iteration of the chunk loop at lines 207-233:
`for (slice = 0; slice < nY; slice += K)` with
`nOfSlices = if (nY - slice < K) nY - slice else K` (lines 210-214).
Each list entry is the `(slice, nOfSlices)` pair of one iteration.
Structural recursion on an explicit iteration budget (`fuel`) keeps the
definition kernel-computable; `nY` iterations are always enough, since
every iteration advances `slice` by `K ≥ 1`. -/
def chunkLoopAux (K nY : Nat) : Nat → Nat → List (Nat × Nat)
  | 0, _ => []
  | fuel + 1, slice =>
      if slice < nY then
        (slice, if nY - slice < K then nY - slice else K) ::
          chunkLoopAux K nY fuel (slice + K)
      else []

/-- The full iteration schedule of the chunk loop, starting at
`slice = 0`. -/
def chunkSchedule (K nY : Nat) : List (Nat × Nat) := chunkLoopAux K nY nY 0

/-- The chunk schedule actually used by `main`: `K = OBJ_BUFFER`, `nY`
the resolved `gl_nVoxel[Y]` (the loop runs only for positive values, so
negative counts clamp to zero iterations exactly as in C). -/
def gridChunks (p : Params) : List (Nat × Nat) :=
  chunkSchedule OBJ_BUFFER p.gl_nVoxelY.toNat

/-- All density values appended to the output stream by the chunk loop,
in order, when chunking with an arbitrary chunk size `K`. -/
def gridDataK (K : Nat) (shape : ObjectType) (p : Params) : List ℚ :=
  (chunkSchedule K p.gl_nVoxelY.toNat).flatMap fun c =>
    generateSlice shape p c.2 c.1

/-- All density values appended to the output stream by `main`'s loop
(`K = OBJ_BUFFER`). -/
def gridData (shape : ObjectType) (p : Params) : List ℚ :=
  gridDataK OBJ_BUFFER shape p

/-- The 16-integer header assembled by `writeSetUp` (lines 115-139), in
source order. -/
def setUp (p : Params) : List Int :=
  [p.gl_pixelDim, p.gl_angularTrajectory, p.gl_positionsAngularDistance,
   p.gl_objectSideLenght, p.gl_detectorSideLength,
   p.gl_distanceObjectDetector, p.gl_distanceObjectSource,
   p.gl_voxelXDim, p.gl_voxelYDim, p.gl_voxelZDim,
   p.gl_nVoxelX, p.gl_nVoxelY, p.gl_nVoxelZ,
   p.gl_nPlanesX, p.gl_nPlanesY, p.gl_nPlanesZ]

/-- `sizeof(int)` on the supported platforms (ILP32/LP64): 4 bytes. -/
def sizeofInt : Nat := 4

/-- `writeSetUp`'s return value on success: `sizeof(setUp)` bytes — the
16 `int` fields written back to back with no padding (`fwrite` of a plain
`int` array). -/
def writeSetUpBytes : Nat := 16 * sizeofInt

/-- The header length reported by `main` (printed at line 240): `0` when
compiled with `-DRAW` (the header write is skipped entirely), otherwise
`writeSetUp`'s return value. -/
def headerLength (raw : Bool) : Nat := if raw then 0 else writeSetUpBytes

/-- One word of the binary output stream: a header `int` or a data
`double`. -/
inductive Word where
  | ival (v : Int)
  | dval (v : ℚ)
deriving DecidableEq

/-- The header portion of the output stream: nothing in RAW mode (the
data begins at offset zero), otherwise the 16 `setUp` integers. -/
def headerWords (raw : Bool) (p : Params) : List Word :=
  if raw then [] else (setUp p).map .ival

/-- The result of running `main`: either `exit(code)` after printing a
diagnostic `msg`, or normal completion.  `stream` is the content written
to the output file so far, as a word sequence. -/
inductive MainResult where
  | exited (code : Nat) (msg : String) (stream : List Word)
  | completed (stream : List Word)
deriving DecidableEq

/-- Whether a run completed normally (reached the success summary and
returned 0). -/
def isCompleted : MainResult → Bool
  | .completed _ => true
  | _ => false

/-- The usage diagnostic printed to `stderr` at lines 153-156 (first
line; the full literal continues with the per-parameter explanations). -/
def usageMsg : String := "Usage:\n\t%s output.dat [integer] [object Type]\n"

/-- Diagnostic at line 191. -/
def openErrMsg : String := "Unable to open file!"

/-- Diagnostic at lines 200 and 230. -/
def writeErrMsg : String := "Unable to write on file!"

/-- `objectType` after argument parsing (lines 149, 163-165): `atoi` of
`argv[2]` when present, otherwise the initial value `0`. -/
def objectTypeOf (args : List String) : Int :=
  match args[1]? with
  | some s => atoi s
  | none => 0

/-- The optional work-size argument (lines 166-167): `atoi` of `argv[3]`
when present. -/
def pixelArgOf (args : List String) : Option Int := (args[2]?).map atoi

/-- The resolved parameters for a given argument vector (`args` is
`argv[1..]`). -/
def paramsOf (d : Defaults) (args : List String) : Params :=
  resolve d (pixelArgOf args)

/-- The chunk-writing loop (lines 207-233) under a write oracle `w`:
`w slice request` is the element count returned by the `fwrite` of the
chunk starting at layer `slice` with `request = nVoxel[X]*nVoxel[Z]*
nOfSlices` elements.  The code checks only `!fwrite(...)`, i.e. a zero
return: on zero it stops (exit 4); on any nonzero return it continues.
The first component is the data actually on disk (`fwrite` stores the
elements it reports); the second is `true` when the loop ran to
completion. -/
def writeChunksGo (nX nZ : Nat) (vals : Nat × Nat → List ℚ)
    (w : Nat → Nat → Nat) : List (Nat × Nat) → List ℚ × Bool
  | [] => ([], true)
  | c :: rest =>
      let k := w c.1 (nX * nZ * c.2)
      if k = 0 then ([], false)
      else
        let r := writeChunksGo nX nZ vals w rest
        ((vals c).take k ++ r.1, r.2)

/-- The whole chunk-generation-and-write phase of `main` (lines 207-233)
for a given argument vector, under write oracle `w`. -/
def chunkPhase (d : Defaults) (args : List String) (w : Nat → Nat → Nat) :
    List ℚ × Bool :=
  writeChunksGo (paramsOf d args).gl_nVoxelX.toNat
    (paramsOf d args).gl_nVoxelZ.toNat
    (fun c => generateSlice (dispatch (objectTypeOf args)) (paramsOf d args)
      c.2 c.1)
    w (gridChunks (paramsOf d args))

/-- `main` (lines 141-253).  `args` is `argv[1..]` (so `argc =
args.length + 1`); `raw` is the `-DRAW` compile switch; `openOk` is
whether `fopen` succeeds; `headerW` is the element count returned by the
header `fwrite` inside `writeSetUp`; `w` is the chunk-write oracle.
Paths: usage error → `exit(EXIT_FAILURE)` (1, POSIX); open failure →
`exit(2)`; header write failure (non-RAW only) → `exit(3)`; chunk write
failure → `exit(4)`; otherwise the summary is printed and `main` returns
normally. -/
def runMain (d : Defaults) (raw : Bool) (args : List String) (openOk : Bool)
    (headerW : Nat) (w : Nat → Nat → Nat) : MainResult :=
  if args.length < 1 ∨ 3 < args.length then
    .exited 1 usageMsg []
  else if openOk = false then
    .exited 2 openErrMsg []
  else if raw = false ∧ headerW = 0 then
    .exited 3 writeErrMsg []
  else if (chunkPhase d args w).2 then
    .completed (headerWords raw (paramsOf d args) ++
      (chunkPhase d args w).1.map .dval)
  else
    .exited 4 writeErrMsg (headerWords raw (paramsOf d args) ++
      (chunkPhase d args w).1.map .dval)

/-! ### Concrete configurations used by witnesses and counterexamples -/

/-- A small concrete default set: `OBJECT_SIDE_LENGTH = 2`, voxel
dimensions `(1, 2, 2)`, every acquisition constant `1`.  It resolves (with
no work-size argument) to `nVoxel = (2, 1, 1)`. -/
def dW : Defaults := ⟨1, 1, 1, 2, 1, 1, 1, 1, 2, 2⟩

/-- The parameters resolved from `dW` with no work-size argument. -/
def pW : Params := resolve dW none

/-- A degenerate default set: `OBJECT_SIDE_LENGTH = 0`, resolving to
`nVoxel = (0, 0, 0)`. -/
def dDeg : Defaults := ⟨1, 1, 1, 0, 1, 1, 1, 1, 2, 2⟩

/-! ### Loop lemmas -/

/-- The layer ranges of the chunk schedule concatenate, in order, to the
contiguous range `[slice, nY)`: no layer is omitted, duplicated, or
reordered. -/
lemma chunkLoopAux_cover (k nY : Nat) :
    ∀ fuel slice : Nat, nY - slice ≤ fuel →
      ((chunkLoopAux (k + 1) nY fuel slice).flatMap fun c =>
          List.range' c.1 c.2) = List.range' slice (nY - slice) := by
  intro fuel
  induction fuel with
  | zero =>
    intro slice h
    have h0 : nY - slice = 0 := Nat.le_zero.mp h
    simp [chunkLoopAux, h0]
  | succ fuel ih =>
    intro slice h
    by_cases hs : slice < nY
    · rw [chunkLoopAux, if_pos hs, List.flatMap_cons,
        ih (slice + (k + 1)) (by omega)]
      by_cases hshort : nY - slice < k + 1
      · have h0 : nY - (slice + (k + 1)) = 0 := by omega
        rw [if_pos hshort, h0]
        simp
      · rw [if_neg hshort]
        have happ := List.range'_append_1 slice (k + 1) (nY - (slice + (k + 1)))
        rw [happ]
        congr 1
        omega
    · rw [chunkLoopAux, if_neg hs]
      have h0 : nY - slice = 0 := by omega
      simp [h0]

/-- Every scheduled chunk starts strictly below `nY` and has length
exactly `min K (nY - slice)`, which is positive. -/
lemma chunkLoopAux_mem (k nY : Nat) :
    ∀ fuel slice : Nat, ∀ c ∈ chunkLoopAux (k + 1) nY fuel slice,
      c.1 < nY ∧ c.2 = min (k + 1) (nY - c.1) ∧ 0 < c.2 := by
  intro fuel
  induction fuel with
  | zero => intro slice c hc; simp [chunkLoopAux] at hc
  | succ fuel ih =>
    intro slice c hc
    by_cases hs : slice < nY
    · rw [chunkLoopAux, if_pos hs] at hc
      rcases List.mem_cons.mp hc with rfl | hc
      · refine ⟨hs, ?_, ?_⟩
        · by_cases hshort : nY - slice < k + 1 <;>
            simp only [hshort, if_pos, if_neg, if_true, if_false] <;> omega
        · by_cases hshort : nY - slice < k + 1 <;>
            simp only [hshort, if_pos, if_neg, if_true, if_false] <;> omega
      · exact ih _ c hc
    · rw [chunkLoopAux, if_neg hs] at hc
      simp at hc

/-- `chunkSchedule` version of `chunkLoopAux_cover`. -/
lemma chunkSchedule_cover (K nY : Nat) (hK : 0 < K) :
    ((chunkSchedule K nY).flatMap fun c => List.range' c.1 c.2)
      = List.range' 0 nY := by
  obtain ⟨k, rfl⟩ : ∃ k, K = k + 1 := ⟨K - 1, by omega⟩
  have := chunkLoopAux_cover k nY nY 0 (by omega)
  simpa [chunkSchedule] using this

/-- `chunkSchedule` version of `chunkLoopAux_mem`. -/
lemma chunkSchedule_mem (K nY : Nat) (hK : 0 < K) :
    ∀ c ∈ chunkSchedule K nY, c.1 < nY ∧ c.2 = min K (nY - c.1) ∧ 0 < c.2 := by
  obtain ⟨k, rfl⟩ : ∃ k, K = k + 1 := ⟨K - 1, by omega⟩
  exact chunkLoopAux_mem k nY nY 0

/-- A layer holds `nVoxel[Z] * nVoxel[X]` values. -/
lemma layerValues_length (shape : ObjectType) (p : Params) (y : Nat) :
    (layerValues shape p y).length = p.gl_nVoxelZ.toNat * p.gl_nVoxelX.toNat := by
  simp [layerValues, List.length_flatMap, Function.comp_def, List.map_const',
    List.sum_replicate, smul_eq_mul]

/-- A generated chunk holds `nVoxel[Z] * nVoxel[X]` values per layer. -/
lemma generateSlice_length (shape : ObjectType) (p : Params)
    (nOfSlices fromSlice : Nat) :
    (generateSlice shape p nOfSlices fromSlice).length
      = nOfSlices * (p.gl_nVoxelZ.toNat * p.gl_nVoxelX.toNat) := by
  simp [generateSlice, List.length_flatMap, Function.comp_def,
    layerValues_length, List.map_const', List.sum_replicate, smul_eq_mul]

/-- Chunked slice generation composes: classifying `a + b` layers from
`s` is classifying `a` layers from `s` followed by `b` layers from
`s + a`. -/
lemma generateSlice_append (shape : ObjectType) (p : Params) (s a b : Nat) :
    generateSlice shape p (a + b) s
      = generateSlice shape p a s ++ generateSlice shape p b (s + a) := by
  rw [generateSlice, generateSlice, generateSlice, ← List.flatMap_append,
    List.range'_append_1, Nat.add_comm b a]

/-- The data emitted by the chunked loop equals a single full-grid
classification, for every positive chunk size `K`. -/
lemma gridDataK_eq_onePass (K : Nat) (hK : 0 < K) (shape : ObjectType)
    (p : Params) :
    gridDataK K shape p = generateSlice shape p p.gl_nVoxelY.toNat 0 := by
  rw [gridDataK, generateSlice]
  have : ∀ l : List (Nat × Nat),
      (l.flatMap fun c => generateSlice shape p c.2 c.1)
        = (l.flatMap fun c => List.range' c.1 c.2).flatMap
            (layerValues shape p) := by
    intro l
    rw [List.flatMap_assoc]
    simp [generateSlice]
  rw [this, chunkSchedule_cover K _ hK]

/-! ### Writer lemmas -/

/-- When the stream accepts every request in full and every chunk request
is positive, the loop writes every chunk, in order, and completes. -/
lemma writeChunksGo_success (nX nZ : Nat) (vals : Nat × Nat → List ℚ)
    (w : Nat → Nat → Nat) (hw : ∀ s r, w s r = r) :
    ∀ l : List (Nat × Nat), (∀ c ∈ l, (vals c).length = nX * nZ * c.2) →
      (∀ c ∈ l, 0 < nX * nZ * c.2) →
      writeChunksGo nX nZ vals w l = (l.flatMap vals, true) := by
  intro l
  induction l with
  | nil => intro _ _; simp [writeChunksGo]
  | cons c rest ih =>
    intro hlen hpos
    have hk : w c.1 (nX * nZ * c.2) = nX * nZ * c.2 := hw _ _
    rw [writeChunksGo]
    simp only [hk]
    rw [if_neg (by have := hpos c (List.mem_cons_self c rest); omega)]
    rw [ih (fun x hx => hlen x (List.mem_cons_of_mem _ hx))
        (fun x hx => hpos x (List.mem_cons_of_mem _ hx))]
    have htake : (vals c).take (nX * nZ * c.2) = vals c := by
      rw [← hlen c (List.mem_cons_self c rest)]; exact List.take_length _
    simp [htake]

/-- When every chunk before `c` is accepted with a nonzero count and the
write for `c` returns zero, the loop stops at `c`: the chunks after `c`
are never processed, and the on-disk data is exactly what the earlier
iterations stored. -/
lemma writeChunksGo_stops (nX nZ : Nat) (vals : Nat × Nat → List ℚ)
    (w : Nat → Nat → Nat) :
    ∀ (pre : List (Nat × Nat)) (c : Nat × Nat) (post : List (Nat × Nat)),
      (∀ x ∈ pre, w x.1 (nX * nZ * x.2) ≠ 0) →
      w c.1 (nX * nZ * c.2) = 0 →
      writeChunksGo nX nZ vals w (pre ++ c :: post)
        = ((writeChunksGo nX nZ vals w pre).1, false) := by
  intro pre
  induction pre with
  | nil =>
    intro c post _ hc
    simp [writeChunksGo, hc]
  | cons x xs ih =>
    intro c post hpre hc
    have hx : w x.1 (nX * nZ * x.2) ≠ 0 := hpre x (List.mem_cons_self x xs)
    rw [List.cons_append, writeChunksGo, writeChunksGo]
    simp only [if_neg hx]
    rw [ih c post (fun y hy => hpre y (List.mem_cons_of_mem _ hy)) hc]

/-- Under a fully-accepting stream and positive transverse voxel counts,
the chunk phase writes exactly the grid data and completes. -/
lemma chunkPhase_success (d : Defaults) (args : List String)
    (w : Nat → Nat → Nat) (hw : ∀ s r, w s r = r)
    (hX : 0 < (paramsOf d args).gl_nVoxelX)
    (hZ : 0 < (paramsOf d args).gl_nVoxelZ) :
    chunkPhase d args w
      = (gridData (dispatch (objectTypeOf args)) (paramsOf d args), true) := by
  rw [chunkPhase, writeChunksGo_success _ _ _ _ hw _ ?hlen ?hpos]
  case hlen =>
    intro c _
    rw [generateSlice_length]
    ring
  case hpos =>
    intro c hc
    have h := chunkSchedule_mem OBJ_BUFFER _ (by norm_num [OBJ_BUFFER]) c hc
    have h2 := h.2.2
    have hx' : 0 < (paramsOf d args).gl_nVoxelX.toNat := by omega
    have hz' : 0 < (paramsOf d args).gl_nVoxelZ.toNat := by omega
    positivity
  rfl

/-- The success path of `main`: valid argument count, successful open,
successful header write (or RAW mode), fully-accepting stream, positive
transverse counts. -/
lemma runMain_success (d : Defaults) (raw : Bool) (args : List String)
    (headerW : Nat) (w : Nat → Nat → Nat)
    (h1 : 1 ≤ args.length) (h2 : args.length ≤ 3)
    (hW : raw = false → headerW ≠ 0) (hw : ∀ s r, w s r = r)
    (hX : 0 < (paramsOf d args).gl_nVoxelX)
    (hZ : 0 < (paramsOf d args).gl_nVoxelZ) :
    runMain d raw args true headerW w
      = .completed (headerWords raw (paramsOf d args) ++
          (gridData (dispatch (objectTypeOf args)) (paramsOf d args)).map
            .dval) := by
  rw [runMain, if_neg (by omega), if_neg (by simp),
    if_neg (by rintro ⟨hr, hh⟩; exact hW hr hh),
    chunkPhase_success d args w hw hX hZ]
  simp

/-- When the resolved `nVoxel[Y]` is nonpositive the chunk loop has an
empty schedule. -/
lemma gridChunks_degenerate (p : Params) (hY : p.gl_nVoxelY ≤ 0) :
    gridChunks p = [] := by
  have h0 : p.gl_nVoxelY.toNat = 0 := by omega
  rw [gridChunks, h0]
  rfl

/-! ### Claim theorems -/

/-- C1: for every configuration with `nVoxel[Y] > 0` (and well-formed
nonnegative transverse counts), the chunked streaming loop processes the
layer range `[0, nVoxel[Y])` in consecutive chunks of exactly
`min(100, nVoxel[Y] - slice)` layers each, and the total number of density
values appended to the output stream across all iterations equals
`nVoxel[X] * nVoxel[Y] * nVoxel[Z]` exactly, with no layer omitted,
duplicated, or reordered (the scheduled layer ranges concatenate to
`[0, nVoxel[Y])` in order).  Termination of the loop is witnessed by the
schedule being a finite list covering the whole range. -/
theorem chunked_loop_covers_grid (shape : ObjectType) (p : Params)
    (hY : 0 < p.gl_nVoxelY) (hX : 0 ≤ p.gl_nVoxelX) (hZ : 0 ≤ p.gl_nVoxelZ) :
    (∀ c ∈ gridChunks p,
        c.2 = min OBJ_BUFFER (p.gl_nVoxelY.toNat - c.1) ∧ 0 < c.2) ∧
    ((gridChunks p).flatMap fun c => List.range' c.1 c.2)
      = List.range' 0 p.gl_nVoxelY.toNat ∧
    ((gridData shape p).length : Int)
      = p.gl_nVoxelX * p.gl_nVoxelY * p.gl_nVoxelZ := by
  refine ⟨?_, ?_, ?_⟩
  · intro c hc
    have h := chunkSchedule_mem OBJ_BUFFER _ (by norm_num [OBJ_BUFFER]) c hc
    exact ⟨h.2.1, h.2.2⟩
  · exact chunkSchedule_cover _ _ (by norm_num [OBJ_BUFFER])
  · rw [gridData, gridDataK_eq_onePass _ (by norm_num [OBJ_BUFFER]),
      generateSlice_length]
    push_cast
    rw [Int.toNat_of_nonneg hX, Int.toNat_of_nonneg hZ,
      Int.toNat_of_nonneg (le_of_lt hY)]
    ring

/-- Witness for C1 at the concrete configuration `pW`
(`nVoxel = (2, 1, 1)`). -/
theorem chunked_loop_covers_grid_witness :
    0 < pW.gl_nVoxelY ∧
    ((gridData .solidCube pW).length : Int)
      = pW.gl_nVoxelX * pW.gl_nVoxelY * pW.gl_nVoxelZ :=
  ⟨by decide,
   (chunked_loop_covers_grid .solidCube pW (by decide) (by decide)
      (by decide)).2.2⟩

/-- C2: for every shape variant and every grid, chunked generation is
equivalent to unchunked generation — for any positive chunk size `K` the
chunked value sequence equals the one-pass classification of the whole
grid (in particular for the actual chunk size `OBJ_BUFFER = 100` and for
`K = 1`), and the per-chunk classifier calls, parameterized by the
absolute starting layer index, compose. -/
theorem chunked_equals_unchunked (K : Nat) (shape : ObjectType) (p : Params)
    (hK : 0 < K) :
    gridDataK K shape p = generateSlice shape p p.gl_nVoxelY.toNat 0 ∧
    gridData shape p = generateSlice shape p p.gl_nVoxelY.toNat 0 ∧
    ∀ s a b : Nat, generateSlice shape p (a + b) s
      = generateSlice shape p a s ++ generateSlice shape p b (s + a) := by
  refine ⟨gridDataK_eq_onePass K hK shape p, ?_, fun s a b =>
    generateSlice_append shape p s a b⟩
  rw [gridData]
  exact gridDataK_eq_onePass OBJ_BUFFER (by norm_num [OBJ_BUFFER]) shape p

/-- Witness for C2: chunk size `1` versus one pass at `pW`, and chunk
composition `5 = 2 + 3` at start layer `0`. -/
theorem chunked_equals_unchunked_witness :
    gridDataK 1 .solidSphere pW
      = generateSlice .solidSphere pW pW.gl_nVoxelY.toNat 0 ∧
    generateSlice .solidSphere pW (2 + 3) 0
      = generateSlice .solidSphere pW 2 0 ++
          generateSlice .solidSphere pW 3 (0 + 2) :=
  ⟨(chunked_equals_unchunked 1 .solidSphere pW (by decide)).1,
   (chunked_equals_unchunked 1 .solidSphere pW (by decide)).2.2 0 2 3⟩

/-- C3: the shape-selector dispatch maps `1` to the cube with a spherical
cavity, `2` to the solid sphere, `3` to the solid cube, and every other
value — an absent second argument (`objectType` stays `0`), `0`, values
above `3`, negative values, and non-numeric strings (`atoi` yields `0`) —
falls back to the solid cube. -/
theorem shape_selector_dispatch (v : Int) (h1 : v ≠ 1) (h2 : v ≠ 2) :
    dispatch 1 = .cubeWithSphericalCavity ∧
    dispatch 2 = .solidSphere ∧
    dispatch 3 = .solidCube ∧
    dispatch v = .solidCube ∧
    objectTypeOf ["output.dat"] = 0 ∧
    dispatch 0 = .solidCube ∧
    atoi "abc" = 0 ∧ dispatch (atoi "abc") = .solidCube ∧
    atoi "-7" = -7 ∧ dispatch (atoi "-7") = .solidCube ∧
    dispatch 4 = .solidCube := by
  refine ⟨by decide, by decide, by decide, ?_, by decide, by decide,
    by decide, by decide, by decide, by decide, by decide⟩
  rw [dispatch, if_neg h1, if_neg h2]

/-- Witness for C3 at the unmapped selector value `5`. -/
theorem shape_selector_dispatch_witness :
    dispatch 1 = .cubeWithSphericalCavity ∧
    dispatch 2 = .solidSphere ∧
    dispatch 3 = .solidCube ∧
    dispatch 5 = .solidCube ∧
    objectTypeOf ["output.dat"] = 0 ∧
    dispatch 0 = .solidCube ∧
    atoi "abc" = 0 ∧ dispatch (atoi "abc") = .solidCube ∧
    atoi "-7" = -7 ∧ dispatch (atoi "-7") = .solidCube ∧
    dispatch 4 = .solidCube :=
  shape_selector_dispatch 5 (by decide) (by decide)

/-- C4: in non-raw mode the header written at the start of the output
stream, before any data chunk, consists of exactly the 16 integer fields
in source order, is written exactly once (the stream is precisely the 16
header words followed by data words only), each field a fixed-width
signed integer with no padding (the reported length is `16 *
sizeof(int)` bytes); in raw mode no header is written, the reported
header length is zero, and data begins at offset zero. -/
theorem header_serialization (d : Defaults) (args : List String)
    (headerW : Nat) (w : Nat → Nat → Nat)
    (h1 : 1 ≤ args.length) (h2 : args.length ≤ 3) (hW : headerW ≠ 0)
    (hw : ∀ s r, w s r = r)
    (hX : 0 < (paramsOf d args).gl_nVoxelX)
    (hZ : 0 < (paramsOf d args).gl_nVoxelZ) :
    setUp (paramsOf d args)
      = [(paramsOf d args).gl_pixelDim,
         (paramsOf d args).gl_angularTrajectory,
         (paramsOf d args).gl_positionsAngularDistance,
         (paramsOf d args).gl_objectSideLenght,
         (paramsOf d args).gl_detectorSideLength,
         (paramsOf d args).gl_distanceObjectDetector,
         (paramsOf d args).gl_distanceObjectSource,
         (paramsOf d args).gl_voxelXDim, (paramsOf d args).gl_voxelYDim,
         (paramsOf d args).gl_voxelZDim,
         (paramsOf d args).gl_nVoxelX, (paramsOf d args).gl_nVoxelY,
         (paramsOf d args).gl_nVoxelZ,
         (paramsOf d args).gl_nPlanesX, (paramsOf d args).gl_nPlanesY,
         (paramsOf d args).gl_nPlanesZ] ∧
    (setUp (paramsOf d args)).length = 16 ∧
    runMain d false args true headerW w
      = .completed ((setUp (paramsOf d args)).map .ival ++
          (gridData (dispatch (objectTypeOf args))
            (paramsOf d args)).map .dval) ∧
    headerLength false = 16 * sizeofInt ∧
    runMain d true args true headerW w
      = .completed ((gridData (dispatch (objectTypeOf args))
          (paramsOf d args)).map .dval) ∧
    headerLength true = 0 := by
  refine ⟨rfl, rfl, ?_, rfl, ?_, rfl⟩
  · rw [runMain_success d false args headerW w h1 h2 (fun _ => hW) hw hX hZ]
    rfl
  · rw [runMain_success d true args headerW w h1 h2 (by intro h; cases h)
      hw hX hZ]
    simp [headerWords]

/-- Witness for C4 at `dW`, output file argument only. -/
theorem header_serialization_witness :
    (0 : Int) < (paramsOf dW ["output.dat"]).gl_nVoxelX ∧
    runMain dW false ["output.dat"] true 64 (fun _ r => r)
      = .completed ((setUp (paramsOf dW ["output.dat"])).map .ival ++
          (gridData (dispatch (objectTypeOf ["output.dat"]))
            (paramsOf dW ["output.dat"])).map .dval) :=
  ⟨by decide,
   (header_serialization dW ["output.dat"] 64 (fun _ r => r) (by decide)
      (by decide) (by decide) (fun _ _ => rfl) (by decide)
      (by decide)).2.2.1⟩

/-- The number of detector pixels per side compiled into the defaults, as
named by spec §4.1 (`defaultPixelsPerSide`): the integer quotient of the
default detector side length by the default pixel dimension. -/
def defaultPixelsPerSide (d : Defaults) : Int :=
  Int.tdiv d.DETECTOR_SIDE_LENGTH d.PIXEL_DIM

/-- The object side length according to the words of spec §4.1:
`objectSideLength = pixelsPerDetectorSide * voxelDim[X] *
(defaultObjectSideLength / (defaultVoxelDimX * defaultPixelsPerSide))`,
with the outer product evaluated in real (`double`) arithmetic and the
result stored into an integer (truncating).  This definition follows the
spec's wording; the claim compares it against `resolve`, which embeds the
source. -/
def spec_objectSideLength (d : Defaults) (n : Int) : Int :=
  truncQ ((n : ℚ) * (d.VOXEL_X_DIM : ℚ) *
    ((d.OBJECT_SIDE_LENGTH : ℚ) /
      ((d.VOXEL_X_DIM : ℚ) * (defaultPixelsPerSide d : ℚ))))

/-- C5: when the detector-pixel-count argument `n` is supplied, the
resolver sets `objectSideLength = n * voxelDim[X] *
(defaultObjectSideLength / (defaultVoxelDimX * defaultPixelsPerSide))`,
`detectorSideLength = n * pixelDim`, `distanceObjectDetector = 1.5 *
objectSideLength`, and `distanceObjectSource = 6 * objectSideLength`,
while every other parameter (`pixelDim`, `angularTrajectory`,
`positionsAngularDistance`, and the three voxel dimensions) keeps its
compiled default value. -/
theorem worksize_resolution (d : Defaults) (n : Int) :
    (resolve d (some n)).gl_objectSideLenght = spec_objectSideLength d n ∧
    (resolve d (some n)).gl_detectorSideLength = n * d.PIXEL_DIM ∧
    (resolve d (some n)).gl_distanceObjectDetector
      = truncQ ((3 / 2 : ℚ) * (spec_objectSideLength d n : ℚ)) ∧
    (resolve d (some n)).gl_distanceObjectSource
      = 6 * spec_objectSideLength d n ∧
    (resolve d (some n)).gl_pixelDim = d.PIXEL_DIM ∧
    (resolve d (some n)).gl_angularTrajectory = d.ANGULAR_TRAJECTORY ∧
    (resolve d (some n)).gl_positionsAngularDistance
      = d.POSITIONS_ANGULAR_DISTANCE ∧
    (resolve d (some n)).gl_voxelXDim = d.VOXEL_X_DIM ∧
    (resolve d (some n)).gl_voxelYDim = d.VOXEL_Y_DIM ∧
    (resolve d (some n)).gl_voxelZDim = d.VOXEL_Z_DIM := by
  have hside : (applyWorkSize d (initialParams d) n).gl_objectSideLenght
      = spec_objectSideLength d n := by
    simp only [applyWorkSize, initialParams, spec_objectSideLength,
      N_PIXEL_ALONG_SIDE, defaultPixelsPerSide]
    congr 1
    push_cast
    ring
  refine ⟨hside, rfl, ?_, ?_, rfl, rfl, rfl, rfl, rfl, rfl⟩
  · show truncQ ((3 / 2 : ℚ) *
        ((applyWorkSize d (initialParams d) n).gl_objectSideLenght : ℚ))
      = _
    rw [hside]
  · show 6 * (applyWorkSize d (initialParams d) n).gl_objectSideLenght = _
    rw [hside]

/-- C6: after parameter resolution — whether or not the pixel-count
argument was supplied — `nVoxel[i] = objectSideLength / voxelDim[i]`
(C integer division, truncating) and `nPlanes[i] = nVoxel[i] + 1` hold
for all three axes, and the very same values are what the header
serializer emits (fields 10-15 of `setUp`).  The resolved parameter value
is immutable in the model, and the source never assigns these globals
after line 181, so they are unchanged through header writing and grid
generation. -/
theorem voxel_count_invariants (d : Defaults) (nArg : Option Int) :
    (resolve d nArg).gl_nVoxelX
      = Int.tdiv (resolve d nArg).gl_objectSideLenght
          (resolve d nArg).gl_voxelXDim ∧
    (resolve d nArg).gl_nVoxelY
      = Int.tdiv (resolve d nArg).gl_objectSideLenght
          (resolve d nArg).gl_voxelYDim ∧
    (resolve d nArg).gl_nVoxelZ
      = Int.tdiv (resolve d nArg).gl_objectSideLenght
          (resolve d nArg).gl_voxelZDim ∧
    (resolve d nArg).gl_nPlanesX = (resolve d nArg).gl_nVoxelX + 1 ∧
    (resolve d nArg).gl_nPlanesY = (resolve d nArg).gl_nVoxelY + 1 ∧
    (resolve d nArg).gl_nPlanesZ = (resolve d nArg).gl_nVoxelZ + 1 ∧
    (setUp (resolve d nArg)).drop 10
      = [(resolve d nArg).gl_nVoxelX, (resolve d nArg).gl_nVoxelY,
         (resolve d nArg).gl_nVoxelZ, (resolve d nArg).gl_nPlanesX,
         (resolve d nArg).gl_nPlanesY, (resolve d nArg).gl_nPlanesZ] := by
  cases nArg <;> exact ⟨rfl, rfl, rfl, rfl, rfl, rfl, rfl⟩

/-- C7 counterexample: the check at line 229 is `!fwrite(...)`, which
only detects a zero return.  At configuration `pW` the single chunk
requests `2` elements; a stream accepting exactly `1` element (fewer than
requested, but nonzero) goes undetected: the run completes and success is
reported. -/
theorem short_write_undetected :
    gridChunks pW = [(0, 1)] ∧
    pW.gl_nVoxelX.toNat * pW.gl_nVoxelZ.toNat * 1 = 2 ∧
    isCompleted (runMain dW false ["output.dat"] true 64 (fun _ _ => 1))
      = true := by decide

/-- C7 amended: the program detects a failed data-chunk append only when
the stream reports zero elements written; in that case it stops
immediately (the chunks after the failing one are never processed),
reports the failure diagnostic, exits with status 4, and reports no
success — the on-disk data is exactly what the iterations before the
failing one stored.  A short write with a nonzero element count is not
detected (see the counterexample). -/
theorem zero_write_detected (d : Defaults) (raw : Bool) (args : List String)
    (headerW : Nat) (w : Nat → Nat → Nat) (pre post : List (Nat × Nat))
    (c : Nat × Nat)
    (h1 : 1 ≤ args.length) (h2 : args.length ≤ 3)
    (hW : raw = false → headerW ≠ 0)
    (hsplit : gridChunks (paramsOf d args) = pre ++ c :: post)
    (hpre : ∀ x ∈ pre, w x.1 ((paramsOf d args).gl_nVoxelX.toNat *
        (paramsOf d args).gl_nVoxelZ.toNat * x.2) ≠ 0)
    (hc : w c.1 ((paramsOf d args).gl_nVoxelX.toNat *
        (paramsOf d args).gl_nVoxelZ.toNat * c.2) = 0) :
    runMain d raw args true headerW w
      = .exited 4 writeErrMsg (headerWords raw (paramsOf d args) ++
          (writeChunksGo (paramsOf d args).gl_nVoxelX.toNat
            (paramsOf d args).gl_nVoxelZ.toNat
            (fun x => generateSlice (dispatch (objectTypeOf args))
              (paramsOf d args) x.2 x.1) w pre).1.map .dval) := by
  have hphase : chunkPhase d args w
      = ((writeChunksGo (paramsOf d args).gl_nVoxelX.toNat
          (paramsOf d args).gl_nVoxelZ.toNat
          (fun x => generateSlice (dispatch (objectTypeOf args))
            (paramsOf d args) x.2 x.1) w pre).1, false) := by
    rw [chunkPhase, hsplit]
    exact writeChunksGo_stops _ _ _ _ pre c post hpre hc
  rw [runMain, if_neg (by omega), if_neg (by simp),
    if_neg (by rintro ⟨hr, hh⟩; exact hW hr hh), hphase]
  simp

/-- Witness for the amended C7: a stream whose first chunk write returns
zero elements makes the run exit with status 4 and an empty data
section. -/
theorem zero_write_detected_witness :
    runMain dW false ["output.dat"] true 64 (fun _ _ => 0)
      = .exited 4 writeErrMsg
          (headerWords false (paramsOf dW ["output.dat"]) ++
            (writeChunksGo (paramsOf dW ["output.dat"]).gl_nVoxelX.toNat
              (paramsOf dW ["output.dat"]).gl_nVoxelZ.toNat
              (fun x => generateSlice
                (dispatch (objectTypeOf ["output.dat"]))
                (paramsOf dW ["output.dat"]) x.2 x.1)
              (fun _ _ => 0) []).1.map .dval) :=
  zero_write_detected dW false ["output.dat"] 64 (fun _ _ => 0) [] [] (0, 1)
    (by decide) (by decide) (by decide) (by decide)
    (by intro x hx; cases hx) rfl

/-- C8 counterexample: with degenerate defaults (`OBJECT_SIDE_LENGTH =
0`, so every resolved `nVoxel[i]` is `0 ≤ 0`) generation does not fail:
the run completes normally and reports success. -/
theorem degenerate_config_succeeds :
    (resolve dDeg none).gl_nVoxelY ≤ 0 ∧
    isCompleted (runMain dDeg false ["output.dat"] true 64 (fun _ r => r))
      = true := by decide

/-- C8 amended: degenerate configurations are not rejected — when the
resolved `nVoxel[Y]` is nonpositive the chunk loop body never runs and
the program completes successfully, emitting the header (in non-raw mode)
and zero density values. -/
theorem degenerate_config_completes (d : Defaults) (raw : Bool)
    (args : List String) (headerW : Nat) (w : Nat → Nat → Nat)
    (h1 : 1 ≤ args.length) (h2 : args.length ≤ 3)
    (hW : raw = false → headerW ≠ 0)
    (hY : (paramsOf d args).gl_nVoxelY ≤ 0) :
    runMain d raw args true headerW w
      = .completed (headerWords raw (paramsOf d args)) := by
  have hphase : chunkPhase d args w = ([], true) := by
    rw [chunkPhase, gridChunks_degenerate _ hY]
    rfl
  rw [runMain, if_neg (by omega), if_neg (by simp),
    if_neg (by rintro ⟨hr, hh⟩; exact hW hr hh), hphase]
  simp

/-- Witness for the amended C8 at the degenerate defaults `dDeg`. -/
theorem degenerate_config_completes_witness :
    runMain dDeg false ["output.dat"] true 64 (fun _ r => r)
      = .completed (headerWords false (paramsOf dDeg ["output.dat"])) :=
  degenerate_config_completes dDeg false ["output.dat"] 64 (fun _ r => r)
    (by decide) (by decide) (by decide) (by decide)

/-- C9: every failure kind terminates the process with a nonzero exit
status distinct from every other failure kind — argument error →
`EXIT_FAILURE` (1), open failure → 2, header write failure → 3, data
chunk write failure → 4 — and each failure path surfaces a (nonempty)
diagnostic message before terminating; none of these failures is
silently ignored. -/
theorem failure_exit_codes :
    (∀ (d : Defaults) (raw : Bool) (args : List String) (openOk : Bool)
        (headerW : Nat) (w : Nat → Nat → Nat),
      (args.length < 1 ∨ 3 < args.length) →
      runMain d raw args openOk headerW w = .exited 1 usageMsg []) ∧
    (∀ (d : Defaults) (raw : Bool) (args : List String) (headerW : Nat)
        (w : Nat → Nat → Nat), 1 ≤ args.length → args.length ≤ 3 →
      runMain d raw args false headerW w = .exited 2 openErrMsg []) ∧
    (∀ (d : Defaults) (args : List String) (w : Nat → Nat → Nat),
      1 ≤ args.length → args.length ≤ 3 →
      runMain d false args true 0 w = .exited 3 writeErrMsg []) ∧
    (∀ (d : Defaults) (raw : Bool) (args : List String) (headerW : Nat)
        (w : Nat → Nat → Nat), 1 ≤ args.length → args.length ≤ 3 →
      (raw = false → headerW ≠ 0) → (chunkPhase d args w).2 = false →
      runMain d raw args true headerW w
        = .exited 4 writeErrMsg (headerWords raw (paramsOf d args) ++
            (chunkPhase d args w).1.map .dval)) ∧
    ((1 : Nat) ≠ 0 ∧ (2 : Nat) ≠ 0 ∧ (3 : Nat) ≠ 0 ∧ (4 : Nat) ≠ 0 ∧
      (1 : Nat) ≠ 2 ∧ (1 : Nat) ≠ 3 ∧ (1 : Nat) ≠ 4 ∧ (2 : Nat) ≠ 3 ∧
      (2 : Nat) ≠ 4 ∧ (3 : Nat) ≠ 4) ∧
    (usageMsg ≠ "" ∧ openErrMsg ≠ "" ∧ writeErrMsg ≠ "") := by
  refine ⟨?_, ?_, ?_, ?_, by decide, by decide⟩
  · intro d raw args openOk headerW w h
    rw [runMain, if_pos h]
  · intro d raw args headerW w h1 h2
    rw [runMain, if_neg (by omega), if_pos rfl]
  · intro d args w h1 h2
    rw [runMain, if_neg (by omega), if_neg (by simp), if_pos ⟨rfl, rfl⟩]
  · intro d raw args headerW w h1 h2 hW hfail
    rw [runMain, if_neg (by omega), if_neg (by simp),
      if_neg (by rintro ⟨hr, hh⟩; exact hW hr hh), if_neg (by simp [hfail])]

/-- Witness for C9: the four failure paths at concrete inputs. -/
theorem failure_exit_codes_witness :
    runMain dW false [] true 64 (fun _ r => r) = .exited 1 usageMsg [] ∧
    runMain dW false ["output.dat"] false 64 (fun _ r => r)
      = .exited 2 openErrMsg [] ∧
    runMain dW false ["output.dat"] true 0 (fun _ r => r)
      = .exited 3 writeErrMsg [] ∧
    runMain dW false ["output.dat"] true 64 (fun _ _ => 0)
      = .exited 4 writeErrMsg
          (headerWords false (paramsOf dW ["output.dat"]) ++
            (chunkPhase dW ["output.dat"] (fun _ _ => 0)).1.map .dval) :=
  ⟨failure_exit_codes.1 dW false [] true 64 (fun _ r => r) (by decide),
   failure_exit_codes.2.1 dW false ["output.dat"] 64 (fun _ r => r)
     (by decide) (by decide),
   failure_exit_codes.2.2.1 dW ["output.dat"] (fun _ r => r)
     (by decide) (by decide),
   failure_exit_codes.2.2.2.1 dW false ["output.dat"] 64 (fun _ _ => 0)
     (by decide) (by decide) (by decide) (by decide)⟩

/-- C10: the output is a deterministic function of the argument vector
and the compiled defaults — two runs over any two ambient I/O behaviors
that both succeed (the stream accepts every request in full and the
header write reports a nonzero count) produce identical results: the same
header field values and the same density value sequence, with no
dependence on randomness or other ambient state. -/
theorem deterministic_output (d : Defaults) (raw : Bool)
    (args : List String) (headerW₁ headerW₂ : Nat)
    (w₁ w₂ : Nat → Nat → Nat)
    (hW₁ : headerW₁ ≠ 0) (hW₂ : headerW₂ ≠ 0)
    (hw₁ : ∀ s r, w₁ s r = r) (hw₂ : ∀ s r, w₂ s r = r) :
    runMain d raw args true headerW₁ w₁
      = runMain d raw args true headerW₂ w₂ := by
  have hfun : w₁ = w₂ := by
    funext s r
    rw [hw₁, hw₂]
  rw [hfun, runMain, runMain]
  by_cases hargs : args.length < 1 ∨ 3 < args.length
  · rw [if_pos hargs, if_pos hargs]
  · rw [if_neg hargs, if_neg hargs,
      if_neg (show ¬(true = false) by simp),
      if_neg (show ¬(true = false) by simp),
      if_neg (show ¬(raw = false ∧ headerW₁ = 0) from fun h => hW₁ h.2),
      if_neg (show ¬(raw = false ∧ headerW₂ = 0) from fun h => hW₂ h.2)]

/-- Witness for C10: two runs with different (but fully accepting)
ambient I/O behaviors coincide. -/
theorem deterministic_output_witness :
    runMain dW false ["output.dat"] true 64 (fun _ r => r)
      = runMain dW false ["output.dat"] true 99 (fun _s r => r) :=
  deterministic_output dW false ["output.dat"] 64 99 (fun _ r => r)
    (fun _s r => r) (by decide) (by decide) (fun _ _ => rfl)
    (fun _ _ => rfl)

end InputGeneration
